import Mathlib

/-!
Verification of the session/connection orchestrator of `local-whisper-app`
(`src/electron/main.cjs`) against its natural-language specification.

The JavaScript source is shallowly embedded: the mutable module-level
variables (`holdActive`, `wsConnected`, `currentMode`, `llmAvailable`,
`wasActive`, `reconnectTimer`) become fields of explicit state records, the
event handlers and commands become pure Lean functions from state to state
paired with the list of observable side effects (sent commands, notices,
cues) they perform, in the order the code performs them.
-/

namespace LocalWhisper

/-! ## Hotkey matcher (`parseHoldHotkey`, `matches`, keyup handler) -/

/-- The parsed hotkey specification built by `parseHoldHotkey`
(main.cjs:328): four required-modifier flags and a primary keycode.
`keyName` is carried for diagnostics only and does not affect matching. -/
structure HotkeySpec where
  ctrl : Bool
  alt : Bool
  shift : Bool
  meta : Bool
  keycode : Nat
  keyName : String
  deriving Repr, DecidableEq

/-- A raw `uiohook` key event as consumed by `matches` and the keyup
handler: a primary keycode plus the four modifier flags held at the time
of the event. -/
structure KeyEvent where
  keycode : Nat
  ctrlKey : Bool
  altKey : Bool
  shiftKey : Bool
  metaKey : Bool
  deriving Repr, DecidableEq

/-- The four modifier flags, for quantifying over "every modifier in M". -/
inductive Modifier where
  | ctrl
  | alt
  | shift
  | meta
  deriving Repr, DecidableEq

/-- Whether the spec requires a given modifier (the set M). -/
def HotkeySpec.requiresMod (spec : HotkeySpec) : Modifier → Bool
  | Modifier.ctrl => spec.ctrl
  | Modifier.alt => spec.alt
  | Modifier.shift => spec.shift
  | Modifier.meta => spec.meta

/-- Whether the event carries (holds) a given modifier. -/
def KeyEvent.modHeld (event : KeyEvent) : Modifier → Bool
  | Modifier.ctrl => event.ctrlKey
  | Modifier.alt => event.altKey
  | Modifier.shift => event.shiftKey
  | Modifier.meta => event.metaKey

/-- `matches(event)` from `setupHoldToTalk` (main.cjs:358-365): the press
predicate. Early-returns false when the keycode differs or when a required
modifier is not held; extra modifiers on the event are never examined. -/
def matchesEvent (spec : HotkeySpec) (event : KeyEvent) : Bool :=
  if event.keycode ≠ spec.keycode then false
  else if spec.ctrl && !event.ctrlKey then false
  else if spec.alt && !event.altKey then false
  else if spec.shift && !event.shiftKey then false
  else if spec.meta && !event.metaKey then false
  else true

/-- The keyup handler condition (main.cjs:371-378): with `holdActive` the
current hold flag, `sendStopCommand` is invoked iff the hold is active and
either the primary key was released or some required modifier is no longer
held on the event. -/
def keyupEndsHold (spec : HotkeySpec) (holdActive : Bool) (event : KeyEvent) : Bool :=
  let mainKeyReleased := event.keycode == spec.keycode
  let modifiersReleased :=
    (spec.ctrl && !event.ctrlKey) ||
    (spec.alt && !event.altKey) ||
    (spec.shift && !event.shiftKey) ||
    (spec.meta && !event.metaKey)
  holdActive && (mainKeyReleased || modifiersReleased)

/-! ## Operating mode -/

/-- The two-valued operating mode (`AppMode` typedef, main.cjs:33): plain
transcription (`"stt"`) or assistant. -/
inductive AppMode where
  | stt
  | assistant
  deriving Repr, DecidableEq

/-! ## Session controller (`sendStartCommand`, `sendStopCommand`) -/

/-- The module-level mutable state read and written by `sendStartCommand`
and `sendStopCommand`: `holdActive` (main.cjs:29), the channel-connected
condition (`wsConnected && ws && ws.readyState === OPEN`, collapsed to one
flag since the three conjuncts are maintained together), and `currentMode`
(main.cjs:35). -/
structure SessionState where
  holdActive : Bool
  connected : Bool
  mode : AppMode
  deriving Repr, DecidableEq

/-- Observable side effects of the session controller, in program order. -/
inductive Effect where
  /-- `notify("Local Whisper", "Not connected yet—starting service…")` -/
  | notifyNotReady
  /-- the call to `scheduleReconnect()` (supervisor/reconnect path) -/
  | callScheduleReconnect
  /-- `playCue("start")` -/
  | playCueStart
  /-- `ws.send({type:"start", mode})` -/
  | sendStart (mode : AppMode)
  /-- `ws.send({type:"stop"})` -/
  | sendStop
  deriving Repr, DecidableEq

/-- `sendStartCommand` (main.cjs:290-306): if the hold is already active,
return immediately; otherwise set it active, and either notify + schedule a
reconnect (channel not connected, no start sent) or play the start cue and
send `start{mode: currentMode}`. -/
def sendStartCommand (s : SessionState) : SessionState × List Effect :=
  if s.holdActive then (s, [])
  else
    let s1 := { s with holdActive := true }
    if !s.connected then
      (s1, [Effect.notifyNotReady, Effect.callScheduleReconnect])
    else
      (s1, [Effect.playCueStart, Effect.sendStart s.mode])

/-- `sendStopCommand` (main.cjs:308-319): if the hold is not active, return
immediately; otherwise clear it, and send `stop{}` only when the channel is
connected. -/
def sendStopCommand (s : SessionState) : SessionState × List Effect :=
  if !s.holdActive then (s, [])
  else
    let s1 := { s with holdActive := false }
    if !s.connected then (s1, [])
    else (s1, [Effect.sendStop])

/-- Whether an effect is a `start` command send. -/
def isStartCmd : Effect → Bool
  | Effect.sendStart _ => true
  | _ => false

/-- Number of `start` commands among a list of effects. -/
def startCount (effs : List Effect) : Nat :=
  effs.countP isStartCmd

/-! ## Reconnect scheduling (`scheduleReconnect`) -/

/-- What the reconnect timer body does when it fires, in program order
(main.cjs:283-287): `startPythonService()` (idempotent ensure-running,
main.cjs:136) then `connectWebSocket()`. -/
inductive ReconnectAction where
  | ensureWorkerRunning
  | connectChannel
  deriving Repr, DecidableEq

/-- `scheduleReconnect` (main.cjs:277-288): acts on `reconnectTimer`
(modelled as the boolean "a timer is pending"); returns the new pending
flag and the number of timers created by this call (`setTimeout` runs
only when no timer was pending). -/
def scheduleReconnect (pending : Bool) : Bool × Nat :=
  if pending then (pending, 0) else (true, 1)

/-- `n` successive triggers of the reconnect path (`ws` close, `ws` error,
worker-process exit — each ends in a `scheduleReconnect()` call) with no
timer firing in between; returns the final pending flag and the total
number of timers created. -/
def triggerDisconnects : Nat → Bool → Bool × Nat
  | 0, pending => (pending, 0)
  | n + 1, pending =>
    let r1 := scheduleReconnect pending
    let r2 := triggerDisconnects n r1.1
    (r2.1, r1.2 + r2.2)

/-- The timer callback (main.cjs:283-287): clears `reconnectTimer`, then
runs `startPythonService()` then `connectWebSocket()`. Returns the new
pending flag and the actions in program order. -/
def fireReconnectTimer : Bool × List ReconnectAction :=
  (false, [ReconnectAction.ensureWorkerRunning, ReconnectAction.connectChannel])

/-! ## Settings persistence (`loadSettings`, `saveSettings`) -/

/-- A JSON value as produced by `JSON.parse`. Object field names are
unique (`JSON.parse` keeps only the last occurrence of a duplicated key). -/
inductive Json where
  | null
  | bool (b : Bool)
  | num (n : Int)
  | str (s : String)
  | arr (elems : List Json)
  | obj (fields : List (String × Json))
  deriving Repr, BEq

/-- JavaScript truthiness of a parsed JSON value (`parsed &&` in
main.cjs:67): `null`, `false`, `0` and `""` are falsy; arrays and objects
are always truthy. -/
def jsTruthy : Json → Bool
  | Json.null => false
  | Json.bool b => b
  | Json.num n => n ≠ 0
  | Json.str s => s ≠ ""
  | Json.arr _ => true
  | Json.obj _ => true

/-- JavaScript property access on a parsed JSON value (`parsed.mode`):
defined only on objects; on every other value the property is `undefined`
(modelled as `none`). -/
def Json.getField : Json → String → Option Json
  | Json.obj fields, key => (fields.find? (fun f => f.1 == key)).map (fun f => f.2)
  | _, _ => none

/-- The outcome of `loadSettings`'s read-and-parse prelude
(main.cjs:62-66): the file may be absent (`existsSync` false, early
return), reading may throw (caught by the surrounding `try`), `JSON.parse`
may throw (same catch), or parsing succeeds with a JSON value. -/
inductive SettingsRead where
  | absent
  | readError
  | parseError
  | parsed (v : Json)

/-- The string comparisons `parsed.mode === "stt" || parsed.mode ===
"assistant"` (main.cjs:67), decoding the `mode` property when it is one of
the two exact strings and nothing otherwise. -/
def decodeMode : Option Json → Option AppMode
  | some (Json.str s) =>
    if s = "stt" then some AppMode.stt
    else if s = "assistant" then some AppMode.assistant
    else none
  | _ => none

/-- The mode update performed by `loadSettings` (main.cjs:67-69): the JS
guard `parsed && (parsed.mode === "stt" || parsed.mode === "assistant")`
assigns `currentMode = parsed.mode` exactly when `parsed` is truthy and
the `mode` property decodes; otherwise `currentMode` is left unchanged.
The error outcomes are swallowed by the `try/catch` and change nothing. -/
def loadSettingsMode (read : SettingsRead) (current : AppMode) : AppMode :=
  match read with
  | SettingsRead.parsed v =>
    if jsTruthy v then (decodeMode (v.getField "mode")).getD current
    else current
  | _ => current

/-! ## Mode controller (`setMode`, `llm_status` handler) -/

/-- The module-level state of the mode controller: `currentMode`
(main.cjs:35) and `llmAvailable` (main.cjs:31, `false` until the worker
reports availability). -/
structure ModeState where
  mode : AppMode
  llmAvailable : Bool
  deriving Repr, DecidableEq

/-- Observable side effects of the mode controller, in program order. -/
inductive ModeEffect where
  /-- `notify("Local Whisper", "LM Studio server not reachable. …")` -/
  | notifyAssistantUnavailable
  /-- `saveSettings()` -/
  | saveSettingsFile
  /-- `notify("Local Whisper", "Mode: …")` after a successful switch -/
  | notifyModeChanged (m : AppMode)
  /-- `notify("Local Whisper", "LM Studio unavailable. Switched to STT mode.")` -/
  | notifySwitchedToStt
  deriving Repr, DecidableEq

/-- `setMode` (main.cjs:85-99): no-op when the target equals the current
mode; switching to assistant while the LLM is unavailable is rejected with
a notice and no state change; otherwise the mode is updated, persisted,
and announced. (The `updateTrayMenu()` call is presentation-only and not
tracked.) -/
def setMode (s : ModeState) (target : AppMode) : ModeState × List ModeEffect :=
  if s.mode = target then (s, [])
  else if target = AppMode.assistant ∧ s.llmAvailable = false then
    (s, [ModeEffect.notifyAssistantUnavailable])
  else
    ({ s with mode := target },
     [ModeEffect.saveSettingsFile, ModeEffect.notifyModeChanged target])

/-- The `llm_status` message handler (main.cjs:246-254): stores the
reported availability; if the mode is assistant and the LLM just became
unavailable, calls `setMode("stt")` and notifies the switch. -/
def handleLlmStatus (s : ModeState) (available : Bool) : ModeState × List ModeEffect :=
  let s1 := { s with llmAvailable := available }
  if s1.mode = AppMode.assistant ∧ available = false then
    let r := setMode s1 AppMode.stt
    (r.1, r.2 ++ [ModeEffect.notifySwitchedToStt])
  else (s1, [])

/-- `loadSettings` (main.cjs:61-71) applied to the mode-controller state:
only `currentMode` can change; `llmAvailable` is untouched. -/
def loadSettings (s : ModeState) (read : SettingsRead) : ModeState :=
  { s with mode := loadSettingsMode read s.mode }

/-- The wire encoding of a mode (the `"stt"`/`"assistant"` strings). -/
def modeWire : AppMode → String
  | AppMode.stt => "stt"
  | AppMode.assistant => "assistant"

/-- The JSON object written by `saveSettings` (main.cjs:77):
`{"mode": currentMode}`. -/
def saveSettingsJson (m : AppMode) : Json :=
  Json.obj [("mode", Json.str (modeWire m))]

/-- The spec's mode invariant: Mode equals Assistant only while
`backendAvailable` is true. -/
def assistantOnlyWhenAvailable (s : ModeState) : Prop :=
  s.mode = AppMode.assistant → s.llmAvailable = true

/-! ## Status handler (`status` messages, `wasActive`, end-of-turn cue) -/

/-- The worker status states of the message taxonomy handled in
main.cjs:203-226. -/
inductive WStatus where
  | listening
  | transcribing
  | thinking
  | speaking
  | idle
  deriving Repr, DecidableEq

/-- One step of the `status` message handler (main.cjs:203-226) acting on
the `wasActive` flag (main.cjs:30): each of the four non-idle states sets
the flag; `idle` fires the end-of-turn cue (`playCue("end")`) iff the flag
was set, then clears it. Returns (new flag, whether the cue fired). -/
def statusStep (wasActive : Bool) (s : WStatus) : Bool × Bool :=
  match s with
  | WStatus.idle => (false, wasActive)
  | _ => (true, false)

/-- The `wasActive` flag after processing a sequence of status messages
starting from flag value `b`. -/
def runWasActive (b : Bool) (l : List WStatus) : Bool :=
  l.foldl (fun a s => (statusStep a s).1) b

/-- Whether the `i`-th message of a status sequence, processed from a
fresh session (`wasActive = false`, main.cjs:30), fires the end-of-turn
cue. An out-of-range index reads the dummy `listening`, which never fires
a cue. -/
def cueFiredAt (l : List WStatus) (i : Nat) : Bool :=
  (statusStep (runWasActive false (l.take i)) (l.getD i WStatus.listening)).2

/-- Spec-side trigger condition on a prefix of the status stream: some
non-idle status has arrived since the last `idle` (equivalently, the
prefix contains a non-idle status with no `idle` after it). -/
def NonIdleSinceLastIdle (l : List WStatus) : Prop :=
  ∃ l1 s l2, l = l1 ++ s :: l2 ∧ s ≠ WStatus.idle ∧ WStatus.idle ∉ l2

/-! ## Result handler (`result` messages) -/

/-- The ECMAScript WhiteSpace and LineTerminator code points removed by
`String.prototype.trim`. -/
def isJsWhitespace (c : Char) : Bool :=
  c.val = 0x20 || c.val = 0x09 || c.val = 0x0a || c.val = 0x0d ||
  c.val = 0x0b || c.val = 0x0c || c.val = 0xa0 || c.val = 0x1680 ||
  (0x2000 ≤ c.val && c.val ≤ 0x200a) || c.val = 0x2028 || c.val = 0x2029 ||
  c.val = 0x202f || c.val = 0x205f || c.val = 0x3000 || c.val = 0xfeff

/-- `String.prototype.trim` on the underlying character list: drop
whitespace from the front, then from the back. -/
def jsTrimList (l : List Char) : List Char :=
  ((l.dropWhile isJsWhitespace).reverse.dropWhile isJsWhitespace).reverse

/-- JavaScript `text.trim()` (main.cjs:229). -/
def jsTrim (s : String) : String :=
  String.mk (jsTrimList s.data)

/-- The `result{text}` handler (main.cjs:228-235) for a message whose
`text` field is a string: trim it; an empty trimmed text is discarded
silently (`return` with no delivery); otherwise exactly the trimmed text
is passed to `pasteIntoFocusedApp`. Returns the delivered text, if any. -/
def handleResultText (text : String) : Option String :=
  let t := jsTrim text
  if t = "" then none else some t

/-! ## Hotkey-string parsing (`parseHoldHotkey`) and startup fallback -/

/-- JavaScript `split("+")` on the underlying character list: split at
every `'+'`, keeping empty segments. -/
def splitOnChar (sep : Char) : List Char → List (List Char)
  | [] => [[]]
  | c :: rest =>
    let r := splitOnChar sep rest
    if c = sep then [] :: r
    else
      match r with
      | [] => [[c]]
      | h :: t => (c :: h) :: t

/-- ASCII `toLowerCase` (the recognized modifier tokens are ASCII). -/
def lowerStr (s : String) : String :=
  String.mk (s.data.map Char.toLower)

/-- ASCII `toUpperCase`. -/
def upperStr (s : String) : String :=
  String.mk (s.data.map Char.toUpper)

/-- `keyName.charAt(0).toUpperCase() + keyName.slice(1)` (main.cjs:343). -/
def capitalizeFirst (s : String) : String :=
  match s.data with
  | [] => ""
  | c :: rest => String.mk (c.toUpper :: rest)

/-- The accumulator built by `parseHoldHotkey`'s token loop
(main.cjs:328-337): four modifier flags plus the last non-modifier token
seen, if any (`keyName`, initially `null`). -/
structure RawHoldSpec where
  ctrl : Bool
  alt : Bool
  shift : Bool
  meta : Bool
  keyName : Option String
  deriving Repr, DecidableEq

/-- One iteration of the token loop (main.cjs:330-337): recognized
modifier aliases (compared on the lowercased token) set the corresponding
flag; any other token becomes the primary-key name (the raw, uncased
token). -/
def classifyToken (spec : RawHoldSpec) (raw : String) : RawHoldSpec :=
  let p := lowerStr raw
  if p = "control" ∨ p = "ctrl" then { spec with ctrl := true }
  else if p = "alt" then { spec with alt := true }
  else if p = "shift" then { spec with shift := true }
  else if p = "super" ∨ p = "meta" ∨ p = "command" ∨ p = "win" ∨ p = "windows" then
    { spec with meta := true }
  else { spec with keyName := some raw }

/-- `parseHoldHotkey` (main.cjs:321-349). The `UiohookKey` table comes
from the external `uiohook-napi` module and is passed in as a lookup from
enum-key name to keycode; `UiohookKey[enumKey]` being `undefined` is
`none`, and the JS guard `if (!keycode)` additionally rejects a keycode
equal to `0`. Returns `none` ("null") when no primary-key token is present
or the primary key is not recognized by the table. -/
def parseHoldHotkey (uiohookKey : String → Option Nat) (accelerator : String) :
    Option HotkeySpec :=
  let parts :=
    (((splitOnChar '+' accelerator.data).map
        (fun cs => String.mk (jsTrimList cs))).filter (fun p => p ≠ ""))
  let spec := parts.foldl classifyToken ⟨false, false, false, false, none⟩
  match spec.keyName with
  | none => none
  | some keyName =>
    let enumKey :=
      if keyName.length = 1 then upperStr keyName else capitalizeFirst keyName
    match uiohookKey enumKey with
    | none => none
    | some keycode =>
      if keycode = 0 then none
      else some ⟨spec.ctrl, spec.alt, spec.shift, spec.meta, keycode, enumKey⟩

/-- A small concrete sample of the real `UiohookKey` table of
`uiohook-napi` (`W` is keycode 17, `M` is keycode 50), standing in for the
external module in concrete evaluations. -/
def uiohookKeyTable : String → Option Nat := fun k =>
  if k = "W" then some 17
  else if k = "M" then some 50
  else none

/-- `setupHoldToTalk`'s success condition (main.cjs:351-354): it returns
`false` — without installing any hook — when the `uiohook-napi` module
failed to load or when `parseHoldHotkey` returned `null`. -/
def setupHoldToTalkOk (hookLibAvailable : Bool) (uiohookKey : String → Option Nat)
    (accelerator : String) : Bool :=
  hookLibAvailable && (parseHoldHotkey uiohookKey accelerator).isSome

/-- How startup can end for the hold-hotkey path. `fatalStartupError` is
what the spec prescribes for an invalid hotkey configuration; the other
three are the outcomes the `app.whenReady` handler (main.cjs:476-485)
actually produces. -/
inductive HoldSetupOutcome where
  /-- `setupHoldToTalk()` returned true: hold-to-talk enabled. -/
  | holdToTalkEnabled
  /-- fallback `globalShortcut.register` succeeded: press-only
  push-to-talk, user notified. -/
  | fallbackRegistered
  /-- fallback registration failed: a failure notice, app keeps running. -/
  | fallbackRegisterFailed
  /-- a fatal, process-terminating configuration error (never produced). -/
  | fatalStartupError
  deriving Repr, DecidableEq

/-- The `app.whenReady` hold-hotkey wiring (main.cjs:476-485): try
`setupHoldToTalk`; on failure, fall back to registering the same
accelerator as a press-only global shortcut, notifying either way. The
process continues in every case. -/
def whenReadyHoldSetup (hookLibAvailable : Bool) (uiohookKey : String → Option Nat)
    (accelerator : String) (fallbackRegisterOk : Bool) : HoldSetupOutcome :=
  if setupHoldToTalkOk hookLibAvailable uiohookKey accelerator then
    HoldSetupOutcome.holdToTalkEnabled
  else if fallbackRegisterOk then HoldSetupOutcome.fallbackRegistered
  else HoldSetupOutcome.fallbackRegisterFailed

end LocalWhisper

namespace LocalWhisper

/-- Helper: the per-modifier quantified statement coincides with the four
conjuncts over the concrete flags. -/
theorem requiresMod_forall_iff (spec : HotkeySpec) (event : KeyEvent) :
    (∀ m : Modifier, spec.requiresMod m = true → event.modHeld m = true) ↔
      ((spec.ctrl = true → event.ctrlKey = true) ∧
       (spec.alt = true → event.altKey = true) ∧
       (spec.shift = true → event.shiftKey = true) ∧
       (spec.meta = true → event.metaKey = true)) := by
  constructor
  · intro h
    exact ⟨h Modifier.ctrl, h Modifier.alt, h Modifier.shift, h Modifier.meta⟩
  · rintro ⟨h1, h2, h3, h4⟩ m hm
    cases m with
    | ctrl => exact h1 hm
    | alt => exact h2 hm
    | shift => exact h3 hm
    | meta => exact h4 hm

/-- Helper: the existential "some required modifier is absent" coincides
with the disjunction over the four concrete flags. -/
theorem requiresMod_exists_iff (spec : HotkeySpec) (event : KeyEvent) :
    (∃ m : Modifier, spec.requiresMod m = true ∧ event.modHeld m = false) ↔
      ((spec.ctrl = true ∧ event.ctrlKey = false) ∨
       (spec.alt = true ∧ event.altKey = false) ∨
       (spec.shift = true ∧ event.shiftKey = false) ∨
       (spec.meta = true ∧ event.metaKey = false)) := by
  constructor
  · rintro ⟨m, hreq, hheld⟩
    cases m with
    | ctrl => exact Or.inl ⟨hreq, hheld⟩
    | alt => exact Or.inr (Or.inl ⟨hreq, hheld⟩)
    | shift => exact Or.inr (Or.inr (Or.inl ⟨hreq, hheld⟩))
    | meta => exact Or.inr (Or.inr (Or.inr ⟨hreq, hheld⟩))
  · rintro (⟨h1, h2⟩ | ⟨h1, h2⟩ | ⟨h1, h2⟩ | ⟨h1, h2⟩)
    · exact ⟨Modifier.ctrl, h1, h2⟩
    · exact ⟨Modifier.alt, h1, h2⟩
    · exact ⟨Modifier.shift, h1, h2⟩
    · exact ⟨Modifier.meta, h1, h2⟩

/-- C1: for every hotkey spec with required modifier set M and primary key
K, and every key event: a press event matches iff the event's primary key
equals K and every modifier in M is held on the event (extra modifiers are
ignored); a keyup event ends the hold iff the hold is active and either the
released key equals K or at least one modifier in M is no longer held. -/
theorem hotkey_matcher_correct (spec : HotkeySpec) (event : KeyEvent)
    (holdActive : Bool) :
    (matchesEvent spec event = true ↔
      (event.keycode = spec.keycode ∧
       ∀ m : Modifier, spec.requiresMod m = true → event.modHeld m = true)) ∧
    (keyupEndsHold spec holdActive event = true ↔
      (holdActive = true ∧
        (event.keycode = spec.keycode ∨
         ∃ m : Modifier, spec.requiresMod m = true ∧ event.modHeld m = false))) := by
  constructor
  · rw [requiresMod_forall_iff]
    unfold matchesEvent
    rcases spec with ⟨c, a, s, m, kc, kn⟩
    rcases event with ⟨ekc, ec, ea, es, em⟩
    by_cases hk : ekc = kc <;>
      cases c <;> cases a <;> cases s <;> cases m <;>
      cases ec <;> cases ea <;> cases es <;> cases em <;>
      simp_all
  · rw [requiresMod_exists_iff]
    unfold keyupEndsHold
    rcases spec with ⟨c, a, s, m, kc, kn⟩
    rcases event with ⟨ekc, ec, ea, es, em⟩
    by_cases hk : ekc = kc <;>
      cases holdActive <;>
      cases c <;> cases a <;> cases s <;> cases m <;>
      cases ec <;> cases ea <;> cases es <;> cases em <;>
      simp_all

/-- C1 witness: for the spec Ctrl+Alt+W (keycode 17), a keydown carrying
Ctrl, Alt and an extra Shift matches, and a keyup of an unrelated key that
dropped the required Ctrl ends an active hold. -/
theorem hotkey_matcher_correct_witness :
    matchesEvent ⟨true, true, false, false, 17, "W"⟩ ⟨17, true, true, true, false⟩ = true ∧
    keyupEndsHold ⟨true, true, false, false, 17, "W"⟩ true ⟨99, false, true, false, false⟩ = true := by
  constructor
  · exact (hotkey_matcher_correct ⟨true, true, false, false, 17, "W"⟩
      ⟨17, true, true, true, false⟩ true).1.mpr
      ⟨rfl, by intro m h; cases m <;> first | rfl | exact h⟩
  · exact (hotkey_matcher_correct ⟨true, true, false, false, 17, "W"⟩
      ⟨99, false, true, false, false⟩ true).2.mpr
      ⟨rfl, Or.inr ⟨Modifier.ctrl, rfl, rfl⟩⟩

/-- C3: `onPress` contract. With the hold already active, `sendStartCommand`
changes nothing and emits nothing; otherwise it sets the hold active and —
channel not connected — notifies "not ready" and triggers the reconnect
path without sending `start`, or — channel connected — plays the start cue
and sends exactly one `start{mode: currentMode}`. Consequently two calls
without an intervening release send at most one `start`. -/
theorem onPress_contract (s : SessionState) :
    (s.holdActive = true → sendStartCommand s = (s, [])) ∧
    (s.holdActive = false →
      (sendStartCommand s).1.holdActive = true ∧
      (sendStartCommand s).1.connected = s.connected ∧
      (sendStartCommand s).1.mode = s.mode ∧
      (s.connected = false →
        (sendStartCommand s).2 =
          [Effect.notifyNotReady, Effect.callScheduleReconnect]) ∧
      (s.connected = true →
        (sendStartCommand s).2 = [Effect.playCueStart, Effect.sendStart s.mode])) ∧
    startCount ((sendStartCommand s).2 ++ (sendStartCommand (sendStartCommand s).1).2) ≤ 1 := by
  rcases s with ⟨h, c, m⟩
  cases h <;> cases c <;>
    simp [sendStartCommand, startCount, isStartCmd, List.countP_append,
      List.countP_cons, List.countP_nil]

/-- C3 witness: from an inactive hold on a connected channel in STT mode,
pressing emits exactly the start cue and one `start{mode:"stt"}`, and a
second press without a release adds no further `start`. -/
theorem onPress_contract_witness :
    (sendStartCommand ⟨false, true, AppMode.stt⟩).2 =
        [Effect.playCueStart, Effect.sendStart AppMode.stt] ∧
      startCount ((sendStartCommand ⟨false, true, AppMode.stt⟩).2 ++
        (sendStartCommand (sendStartCommand ⟨false, true, AppMode.stt⟩).1).2) ≤ 1 := by
  have h := onPress_contract ⟨false, true, AppMode.stt⟩
  exact ⟨(h.2.1 rfl).2.2.2.2 rfl, h.2.2⟩

/-- C4: `onRelease` contract. With the hold inactive, `sendStopCommand`
changes nothing and emits nothing; with the hold active it always clears
the hold (also when the channel dropped mid-hold, so the next press is not
deadlocked) and sends `stop{}` only when the channel is connected. -/
theorem onRelease_contract (s : SessionState) :
    (s.holdActive = false → sendStopCommand s = (s, [])) ∧
    (s.holdActive = true →
      (sendStopCommand s).1.holdActive = false ∧
      (sendStopCommand s).1.connected = s.connected ∧
      (sendStopCommand s).1.mode = s.mode ∧
      (s.connected = true → (sendStopCommand s).2 = [Effect.sendStop]) ∧
      (s.connected = false → (sendStopCommand s).2 = [])) := by
  rcases s with ⟨h, c, m⟩
  cases h <;> cases c <;> simp [sendStopCommand]

/-- C4 witness: after a channel drop mid-hold (hold active, channel not
connected), releasing clears the hold and sends nothing. -/
theorem onRelease_contract_witness :
    (sendStopCommand ⟨true, false, AppMode.stt⟩).1.holdActive = false ∧
      (sendStopCommand ⟨true, false, AppMode.stt⟩).2 = [] := by
  have h := (onRelease_contract ⟨true, false, AppMode.stt⟩).2 rfl
  exact ⟨h.1, h.2.2.2.2 rfl⟩

/-- C5: reconnect scheduling is idempotent — any positive number of
disconnect/exit triggers arriving while no timer is pending creates exactly
one pending timer, triggers while a timer is pending create none, and the
timer body clears the pending flag and re-ensures the worker process is
running before attempting `connect()`. -/
theorem reconnect_single_timer (n : Nat) (hn : 1 ≤ n) :
    triggerDisconnects n false = (true, 1) ∧
    (∀ k : Nat, triggerDisconnects k true = (true, 0)) ∧
    fireReconnectTimer =
      (false, [ReconnectAction.ensureWorkerRunning, ReconnectAction.connectChannel]) := by
  have htrue : ∀ k : Nat, triggerDisconnects k true = (true, 0) := by
    intro k
    induction k with
    | zero => rfl
    | succ k ih => simp [triggerDisconnects, scheduleReconnect, ih]
  refine ⟨?_, htrue, rfl⟩
  obtain ⟨m, rfl⟩ := Nat.exists_eq_add_of_le hn
  rw [Nat.add_comm 1 m]
  simp [triggerDisconnects, scheduleReconnect, htrue m]

/-- C5 witness: three triggers from an idle reconnect state schedule
exactly one attempt. -/
theorem reconnect_single_timer_witness :
    triggerDisconnects 3 false = (true, 1) :=
  (reconnect_single_timer 3 (by decide)).1

/-- Helper: when the `mode` property is neither exactly `"stt"` nor
exactly `"assistant"`, it does not decode. -/
theorem decodeMode_eq_none (o : Option Json)
    (h1 : o ≠ some (Json.str "stt")) (h2 : o ≠ some (Json.str "assistant")) :
    decodeMode o = none := by
  match o with
  | none => rfl
  | some Json.null => rfl
  | some (Json.bool b) => rfl
  | some (Json.num n) => rfl
  | some (Json.arr es) => rfl
  | some (Json.obj fs) => rfl
  | some (Json.str s) =>
    by_cases hs : s = "stt"
    · exact absurd (by rw [hs]) h1
    · by_cases ha : s = "assistant"
      · exact absurd (by rw [ha]) h2
      · simp [decodeMode, hs, ha]

/-- Helper: a successful decode pins down the `mode` property exactly. -/
theorem decodeMode_eq_some (o : Option Json) (a : AppMode)
    (h : decodeMode o = some a) :
    (a = AppMode.stt ∧ o = some (Json.str "stt")) ∨
    (a = AppMode.assistant ∧ o = some (Json.str "assistant")) := by
  match o with
  | none => exact absurd h (by simp [decodeMode])
  | some Json.null => exact absurd h (by simp [decodeMode])
  | some (Json.bool b) => exact absurd h (by simp [decodeMode])
  | some (Json.num n) => exact absurd h (by simp [decodeMode])
  | some (Json.arr es) => exact absurd h (by simp [decodeMode])
  | some (Json.obj fs) => exact absurd h (by simp [decodeMode])
  | some (Json.str s) =>
    by_cases hs : s = "stt"
    · subst hs
      simp [decodeMode] at h
      exact Or.inl ⟨h.symm, rfl⟩
    · by_cases ha : s = "assistant"
      · subst ha
        simp [decodeMode, hs] at h
        exact Or.inr ⟨h.symm, rfl⟩
      · exact absurd h (by simp [decodeMode, hs, ha])

/-- C2 counterexample: the invariant does not hold at every reachable
state. At startup (main.cjs:464) `loadSettings` runs while `llmAvailable`
is still `false` (main.cjs:31, no availability message has arrived); with
a persisted `{"mode":"assistant"}` — exactly what `saveSettings` writes
after a legitimate switch to assistant — the loaded state has
Mode = Assistant with the backend unavailable. -/
theorem mode_invariant_load_counterexample :
    (loadSettings ⟨AppMode.stt, false⟩
        (SettingsRead.parsed (saveSettingsJson AppMode.assistant))).mode
        = AppMode.assistant ∧
    (loadSettings ⟨AppMode.stt, false⟩
        (SettingsRead.parsed (saveSettingsJson AppMode.assistant))).llmAvailable
        = false ∧
    ¬ assistantOnlyWhenAvailable
        (loadSettings ⟨AppMode.stt, false⟩
          (SettingsRead.parsed (saveSettingsJson AppMode.assistant))) := by
  refine ⟨rfl, rfl, fun h => ?_⟩
  exact absurd (h rfl) (by decide)

/-- C2 (amended): the invariant is inductive for the mode controller —
from any state satisfying it, `setMode(assistant)` with the backend
unavailable is rejected with a user-visible notice and no state change,
every `setMode` preserves the invariant, every `llm_status` message
re-establishes it unconditionally, and `llm_status{available:false}`
while in assistant mode immediately forces `stt` — but settings loading
at startup is not guarded, so the invariant can be broken there. -/
theorem mode_gating_amended (s : ModeState) (target : AppMode) (b : Bool) :
    (assistantOnlyWhenAvailable s → target = AppMode.assistant →
      s.llmAvailable = false →
      setMode s target = (s, [ModeEffect.notifyAssistantUnavailable])) ∧
    (assistantOnlyWhenAvailable s →
      assistantOnlyWhenAvailable (setMode s target).1) ∧
    assistantOnlyWhenAvailable (handleLlmStatus s b).1 ∧
    (s.mode = AppMode.assistant → b = false →
      (handleLlmStatus s b).1.mode = AppMode.stt ∧
      (handleLlmStatus s b).1.llmAvailable = false) := by
  rcases s with ⟨m, l⟩
  cases m <;> cases l <;> cases target <;> cases b <;>
    simp [assistantOnlyWhenAvailable, setMode, handleLlmStatus]

/-- C2 witness: with the backend unavailable, a switch to assistant from
`stt` is rejected with the notice; and `llm_status{available:false}`
received in assistant mode forces `stt`. -/
theorem mode_gating_amended_witness :
    setMode ⟨AppMode.stt, false⟩ AppMode.assistant =
        (⟨AppMode.stt, false⟩, [ModeEffect.notifyAssistantUnavailable]) ∧
    (handleLlmStatus ⟨AppMode.assistant, true⟩ false).1.mode = AppMode.stt := by
  refine ⟨?_, ?_⟩
  · exact (mode_gating_amended ⟨AppMode.stt, false⟩ AppMode.assistant false).1
      (by simp [assistantOnlyWhenAvailable]) rfl rfl
  · exact ((mode_gating_amended ⟨AppMode.assistant, true⟩ AppMode.stt false).2.2.2
      rfl rfl).1

/-- C9 counterexample: persisting Mode=Assistant and reloading at startup
while BackendAvailable is false yields Mode=Assistant, not Transcribe —
`loadSettings` applies the persisted mode without consulting
`llmAvailable`. -/
theorem mode_roundtrip_counterexample :
    (loadSettings ⟨AppMode.stt, false⟩
        (SettingsRead.parsed (saveSettingsJson AppMode.assistant))).mode
      ≠ AppMode.stt := by
  intro h
  exact absurd h (by decide)

/-- C9 (amended): reloading what `saveSettings` persisted restores exactly
the persisted mode — optimistically, regardless of the availability flag,
which is left untouched. (The mode is forced back to `stt` only later, if
`llm_status{available:false}` arrives while in assistant mode.) -/
theorem mode_roundtrip_amended (s : ModeState) (m : AppMode) :
    loadSettings s (SettingsRead.parsed (saveSettingsJson m)) =
      ⟨m, s.llmAvailable⟩ := by
  cases m <;> rfl

/-- C9 witness: the persisted-assistant round trip at startup, with the
backend unavailable, lands in assistant mode with availability still
false. -/
theorem mode_roundtrip_amended_witness :
    loadSettings ⟨AppMode.stt, false⟩
        (SettingsRead.parsed (saveSettingsJson AppMode.assistant)) =
      ⟨AppMode.assistant, false⟩ :=
  mode_roundtrip_amended ⟨AppMode.stt, false⟩ AppMode.assistant

/-- C10: `loadSettings` never fails and is conservative — the availability
flag is untouched; an absent file, an unreadable file, or invalid JSON
leave the state unchanged; a parsed value whose `mode` property is not
exactly `"stt"` or `"assistant"` leaves the state unchanged; and in
general either nothing changes or the file parsed to a value whose `mode`
property is exactly one of the two strings, which becomes the mode. -/
theorem loadSettings_robust (s : ModeState) (read : SettingsRead) :
    (loadSettings s read).llmAvailable = s.llmAvailable ∧
    loadSettings s SettingsRead.absent = s ∧
    loadSettings s SettingsRead.readError = s ∧
    loadSettings s SettingsRead.parseError = s ∧
    (∀ v : Json, v.getField "mode" ≠ some (Json.str "stt") →
      v.getField "mode" ≠ some (Json.str "assistant") →
      loadSettings s (SettingsRead.parsed v) = s) ∧
    (loadSettings s read = s ∨
      (∃ v : Json, read = SettingsRead.parsed v ∧
        ((v.getField "mode" = some (Json.str "stt") ∧
            (loadSettings s read).mode = AppMode.stt) ∨
         (v.getField "mode" = some (Json.str "assistant") ∧
            (loadSettings s read).mode = AppMode.assistant)))) := by
  refine ⟨rfl, rfl, rfl, rfl, ?_, ?_⟩
  · intro v h1 h2
    simp [loadSettings, loadSettingsMode, decodeMode_eq_none _ h1 h2]
  · match read with
    | SettingsRead.absent => exact Or.inl rfl
    | SettingsRead.readError => exact Or.inl rfl
    | SettingsRead.parseError => exact Or.inl rfl
    | SettingsRead.parsed v =>
      by_cases ht : jsTruthy v
      · match hd : decodeMode (v.getField "mode") with
        | none =>
          exact Or.inl (by simp [loadSettings, loadSettingsMode, ht, hd])
        | some a =>
          refine Or.inr ⟨v, rfl, ?_⟩
          have hmode : (loadSettings s (SettingsRead.parsed v)).mode = a := by
            simp [loadSettings, loadSettingsMode, ht, hd]
          rcases decodeMode_eq_some _ _ hd with ⟨ha, ho⟩ | ⟨ha, ho⟩
          · exact Or.inl ⟨ho, by rw [hmode, ha]⟩
          · exact Or.inr ⟨ho, by rw [hmode, ha]⟩
      · exact Or.inl (by simp [loadSettings, loadSettingsMode, ht])

/-- C10 witness: a parsed settings file holding the JSON number `5` (a
truthy value with no `mode` property) leaves the state unchanged. -/
theorem loadSettings_robust_witness :
    loadSettings ⟨AppMode.stt, true⟩ (SettingsRead.parsed (Json.num 5)) =
      ⟨AppMode.stt, true⟩ :=
  (loadSettings_robust ⟨AppMode.stt, true⟩
      (SettingsRead.parsed (Json.num 5))).2.2.2.2.1 (Json.num 5)
    (fun h => Option.noConfusion h) (fun h => Option.noConfusion h)

/-- Helper: the `wasActive` flag after one more message. -/
theorem runWasActive_append (b : Bool) (l : List WStatus) (x : WStatus) :
    runWasActive b (l ++ [x]) = (statusStep (runWasActive b l) x).1 := by
  simp [runWasActive, List.foldl_append]

/-- Helper: starting from a fresh session, the `wasActive` flag is set
after a prefix exactly when a non-idle status has arrived since the last
`idle`. -/
theorem runWasActive_true_iff (l : List WStatus) :
    runWasActive false l = true ↔ NonIdleSinceLastIdle l := by
  induction l using List.reverseRecOn with
  | nil =>
    constructor
    · intro h
      exact absurd h (by decide)
    · rintro ⟨l1, s, l2, heq, hs, hni⟩
      exact absurd heq (by simp)
  | append_singleton l x ih =>
    rw [runWasActive_append]
    cases x with
    | idle =>
      simp only [statusStep]
      constructor
      · intro h
        exact absurd h (by decide)
      · rintro ⟨l1, s, l2, heq, hs, hni⟩
        rcases List.eq_nil_or_concat l2 with rfl | ⟨l2', a, rfl⟩
        · have h2 := (List.append_inj' heq (by simp)).2
          injection h2 with h3 h4
          exact (hs h3.symm).elim
        · rw [List.concat_eq_append] at heq hni
          rw [show l1 ++ s :: (l2' ++ [a]) = (l1 ++ s :: l2') ++ [a] by simp] at heq
          have h2 := (List.append_inj' heq (by simp)).2
          injection h2 with h3 h4
          rw [← h3] at hni
          exact (hni (by simp)).elim
    | listening =>
      simp only [statusStep, NonIdleSinceLastIdle, eq_self_iff_true, true_iff]
      exact ⟨l, WStatus.listening, [], by simp, by decide, by simp⟩
    | transcribing =>
      simp only [statusStep, NonIdleSinceLastIdle, eq_self_iff_true, true_iff]
      exact ⟨l, WStatus.transcribing, [], by simp, by decide, by simp⟩
    | thinking =>
      simp only [statusStep, NonIdleSinceLastIdle, eq_self_iff_true, true_iff]
      exact ⟨l, WStatus.thinking, [], by simp, by decide, by simp⟩
    | speaking =>
      simp only [statusStep, NonIdleSinceLastIdle, eq_self_iff_true, true_iff]
      exact ⟨l, WStatus.speaking, [], by simp, by decide, by simp⟩

/-- C6: the end-of-turn cue is edge-triggered. In any status sequence
processed from a fresh session, message `i` fires the cue exactly when it
is an `idle` and some non-idle status arrived since the last `idle`
before it. Hence an `idle` with no preceding non-idle fires nothing, a
non-idle followed by `idle` fires exactly once, and repeated `idle`
messages cannot re-fire (the segment between two idles without a non-idle
fails the condition). -/
theorem end_of_turn_cue_edge_triggered (l : List WStatus) (i : Nat) :
    cueFiredAt l i = true ↔
      (l.getD i WStatus.listening = WStatus.idle ∧
        NonIdleSinceLastIdle (l.take i)) := by
  unfold cueFiredAt
  cases hx : l.getD i WStatus.listening with
  | idle => simp [statusStep, runWasActive_true_iff]
  | listening => simp [statusStep]
  | transcribing => simp [statusStep]
  | thinking => simp [statusStep]
  | speaking => simp [statusStep]

/-- C6 witness: `status{listening}` followed by `status{idle}` fires the
cue at the `idle`. -/
theorem end_of_turn_cue_edge_triggered_witness :
    cueFiredAt [WStatus.listening, WStatus.idle] 1 = true :=
  (end_of_turn_cue_edge_triggered [WStatus.listening, WStatus.idle] 1).mpr
    ⟨rfl, ⟨[], WStatus.listening, [], rfl, by decide, by simp⟩⟩

/-- C7: a `result{text}` message whose text trims to the empty string is
discarded silently with no delivery; otherwise exactly the trimmed text
is delivered — in particular `"  hello world  "` delivers exactly
`"hello world"`. -/
theorem result_trim_contract (text : String) :
    (jsTrim text = "" → handleResultText text = none) ∧
    (jsTrim text ≠ "" → handleResultText text = some (jsTrim text)) ∧
    handleResultText "  hello world  " = some "hello world" := by
  refine ⟨fun h => ?_, fun h => ?_, ?_⟩
  · simp [handleResultText, h]
  · simp [handleResultText, h]
  · decide

/-- C7 witness: a whitespace-only text is discarded; the spec's example
text delivers its trimmed form. -/
theorem result_trim_contract_witness :
    handleResultText " \t " = none ∧
    handleResultText "  hello world  " = some (jsTrim "  hello world  ") :=
  ⟨(result_trim_contract " \t ").1 (by decide),
   (result_trim_contract "  hello world  ").2.1 (by decide)⟩

/-- C8 counterexample: an invalid hotkey configuration is not fatal. With
the hook library available, a working fallback shortcut and the hotkey
string `"Control+Alt"` (no primary key) — or `"Control+Alt+Waffle"`
(unrecognized primary key) — `parseHoldHotkey` returns `null`, and
startup proceeds to register the press-only fallback and keeps running
instead of failing with a fatal configuration error. -/
theorem hotkey_invalid_not_fatal_counterexample :
    parseHoldHotkey uiohookKeyTable "Control+Alt" = none ∧
    parseHoldHotkey uiohookKeyTable "Control+Alt+Waffle" = none ∧
    whenReadyHoldSetup true uiohookKeyTable "Control+Alt" true =
      HoldSetupOutcome.fallbackRegistered ∧
    whenReadyHoldSetup true uiohookKeyTable "Control+Alt" true ≠
      HoldSetupOutcome.fatalStartupError := by
  refine ⟨?_, ?_, ?_, ?_⟩ <;> decide

/-- C8 (amended): for every invalid hotkey configuration string (no
primary key, or an unrecognized primary key — `parseHoldHotkey` returns
`null`), startup never raises a fatal configuration error and never
enables hold-to-talk: it degrades to registering the accelerator as a
press-only fallback, reporting success or failure of that registration
with a notice, and the process continues either way. -/
theorem hotkey_invalid_degrades (uiohookKey : String → Option Nat)
    (accelerator : String) (hookLibAvailable fallbackRegisterOk : Bool)
    (h : parseHoldHotkey uiohookKey accelerator = none) :
    whenReadyHoldSetup hookLibAvailable uiohookKey accelerator fallbackRegisterOk ≠
      HoldSetupOutcome.fatalStartupError ∧
    whenReadyHoldSetup hookLibAvailable uiohookKey accelerator fallbackRegisterOk ≠
      HoldSetupOutcome.holdToTalkEnabled ∧
    (fallbackRegisterOk = true →
      whenReadyHoldSetup hookLibAvailable uiohookKey accelerator fallbackRegisterOk =
        HoldSetupOutcome.fallbackRegistered) ∧
    (fallbackRegisterOk = false →
      whenReadyHoldSetup hookLibAvailable uiohookKey accelerator fallbackRegisterOk =
        HoldSetupOutcome.fallbackRegisterFailed) := by
  have hok : setupHoldToTalkOk hookLibAvailable uiohookKey accelerator = false := by
    simp [setupHoldToTalkOk, h]
  cases fallbackRegisterOk <;> simp [whenReadyHoldSetup, hok]

/-- C8 witness: with no primary key in the hotkey string and a failing
fallback registration, startup still only produces the non-fatal
failure-notice outcome. -/
theorem hotkey_invalid_degrades_witness :
    whenReadyHoldSetup true uiohookKeyTable "Control+Alt" false =
      HoldSetupOutcome.fallbackRegisterFailed :=
  (hotkey_invalid_degrades uiohookKeyTable "Control+Alt" true false
      (by decide)).2.2.2 rfl

end LocalWhisper
